import Mathlib

/-!
# SC-LatestTracksFinder: a shallow embedding of the SoundCloud client

The development embeds `src/soundcloud.js` (class `SoundCloudClient`), the
identifier dispatch of `src/index.js` (`main`) and the whole of
`src/generate-tracks.js` (`generateTracksJSON`).

Conventions of the embedding:

* JavaScript numbers are modelled as mathematical integers (`Int`) plus `NaN`
  (`JsNum`); this is exact for integral doubles of magnitude below `2^53`.
* A thrown `Error` is modelled by its `message` (`Except String`).
* `async` functions become state-passing functions over a host `Host σ`
  (clock, network, file system); every `fetch` is recorded in `requests`.
-/

namespace SCLatestTracks

/-! ## JavaScript values -/

/-- Primitive JavaScript values, as they appear in the fields of decoded JSON
objects; `undefined` is what reading an absent property yields. -/
inductive JsVal where
  | undefined
  | null
  | bool (b : Bool)
  | num (n : Int)
  | str (s : String)
  deriving DecidableEq, Repr

/-- A JavaScript number in arithmetic position: an integer or `NaN`. -/
inductive JsNum where
  | nan
  | int (i : Int)
  deriving DecidableEq, Repr

namespace JsVal

/-- ToBoolean: `undefined`, `null`, `false`, `0` and `''` are falsy. -/
def truthy : JsVal → Bool
  | undefined => false
  | null => false
  | bool b => b
  | num n => n != 0
  | str s => s != ""

/-- The operator `a || b`: `a` when it is truthy, else `b`. -/
def or (a b : JsVal) : JsVal :=
  if a.truthy then a else b

/-- ToString, as used by template literals. -/
def toStr : JsVal → String
  | undefined => "undefined"
  | null => "null"
  | bool b => if b then "true" else "false"
  | num n => toString n
  | str s => s

end JsVal

namespace JsNum

/-- ToBoolean on numbers: `0` and `NaN` are falsy. -/
def truthy : JsNum → Bool
  | nan => false
  | int i => i != 0

/-- ToString on numbers. -/
def toStr : JsNum → String
  | nan => "NaN"
  | int i => toString i

/-- The operator `a + b` on numbers. -/
def add : JsNum → JsNum → JsNum
  | int a, int b => int (a + b)
  | _, _ => nan

/-- The operator `a - b` on numbers. -/
def sub : JsNum → JsNum → JsNum
  | int a, int b => int (a - b)
  | _, _ => nan

/-- The operator `a * b` on numbers. -/
def mul : JsNum → JsNum → JsNum
  | int a, int b => int (a * b)
  | _, _ => nan

/-- The operator `a < b` on numbers; any comparison with `NaN` is false. -/
def lt : JsNum → JsNum → Bool
  | int a, int b => decide (a < b)
  | _, _ => false

end JsNum

/-- The method `String.prototype.padStart(targetLength, padString)` for a one-character
pad string: the pad is repeated in front until the target length is reached. -/
def padStart (s : String) (targetLength : Nat) (c : Char) : String :=
  String.mk (List.replicate (targetLength - s.length) c) ++ s

/-! ## `SoundCloudClient.formatDuration` (soundcloud.js 151-156) -/

/-- The method `formatDuration (ms)`:
`totalSeconds = Math.floor(ms / 1000)`, `minutes = Math.floor(totalSeconds / 60)`,
`seconds = totalSeconds % 60` (the remainder takes the sign of the dividend), and the
result is the template `minutes:seconds.toString().padStart(2, '0')`. -/
def formatDuration : JsNum → String
  | .nan => "NaN" ++ ":" ++ padStart "NaN" 2 '0'
  | .int ms =>
    let totalSeconds : Int := Int.fdiv ms 1000
    let minutes : Int := Int.fdiv totalSeconds 60
    let seconds : Int := Int.tmod totalSeconds 60
    toString minutes ++ ":" ++ padStart (toString seconds) 2 '0'

/-- The decimal digit character of `d` for `d < 10`. -/
def digitChar (d : Nat) : Char := Char.ofNat (48 + d)

/-! ## Built-in encoders used by the client -/

/-- The UTF-8 code units of a character. -/
def utf8Bytes (c : Char) : List Nat :=
  let n := c.toNat
  if n < 128 then [n]
  else if n < 2048 then [192 + n / 64, 128 + n % 64]
  else if n < 65536 then [224 + n / 4096, 128 + n / 64 % 64, 128 + n % 64]
  else [240 + n / 262144, 128 + n / 4096 % 64, 128 + n / 64 % 64, 128 + n % 64]

/-- The UTF-8 encoding of a string (`Buffer.from(str)`). -/
def utf8 (s : String) : List Nat :=
  s.data.flatMap utf8Bytes

/-- The base64 alphabet. -/
def base64Char (n : Nat) : Char :=
  if n < 26 then Char.ofNat (65 + n)
  else if n < 52 then Char.ofNat (97 + (n - 26))
  else if n < 62 then Char.ofNat (48 + (n - 52))
  else if n = 62 then '+'
  else '/'

/-- Base64 of a byte sequence, with `=` padding (`buffer.toString('base64')`). -/
def base64Bytes : List Nat → List Char
  | [] => []
  | [a] => [base64Char (a / 4), base64Char (a % 4 * 16), '=', '=']
  | [a, b] => [base64Char (a / 4), base64Char (a % 4 * 16 + b / 16), base64Char (b % 16 * 4), '=']
  | a :: b :: c :: rest =>
    base64Char (a / 4) :: base64Char (a % 4 * 16 + b / 16) ::
      base64Char (b % 16 * 4 + c / 64) :: base64Char (c % 64) :: base64Bytes rest

/-- The expression `Buffer.from(s).toString('base64')`. -/
def base64 (s : String) : String :=
  String.mk (base64Bytes (utf8 s))

/-- An upper-case hexadecimal digit. -/
def hexDigit (n : Nat) : Char :=
  if n < 10 then Char.ofNat (48 + n) else Char.ofNat (55 + n)

/-- Characters that `encodeURIComponent` leaves alone: ASCII letters, digits and
`- _ . ! ~ * ' ( )`. -/
def uriUnreserved (c : Char) : Bool :=
  let n := c.toNat
  (65 ≤ n && n ≤ 90) || (97 ≤ n && n ≤ 122) || (48 ≤ n && n ≤ 57) ||
    n = 45 || n = 95 || n = 46 || n = 33 || n = 126 || n = 42 || n = 39 || n = 40 || n = 41

/-- The built-in `encodeURIComponent`: every other character becomes the
percent-escapes of its UTF-8 code units. -/
def encodeURIComponent (s : String) : String :=
  String.mk (s.data.flatMap fun c =>
    if uriUnreserved c then [c]
    else (utf8Bytes c).flatMap fun b => ['%', hexDigit (b / 16), hexDigit (b % 16)])

/-! ## Data model -/

/-- A raw track object of the API, seen through the properties the program reads.
A property that is absent reads as `undefined`; `duration` is the numeric reading of
the property (milliseconds, `NaN` when absent). -/
structure RawTrack where
  id : JsVal
  title : JsVal
  permalink_url : JsVal
  created_at : JsVal
  duration : JsNum
  playback_count : JsVal
  likes_count : JsVal
  favoritings_count : JsVal
  comment_count : JsVal
  genre : JsVal
  description : JsVal
  artwork_url : JsVal
  waveform_url : JsVal
  public : JsVal
  sharing : JsVal
  deriving DecidableEq, Repr

/-- The object returned by `formatTrack`. -/
structure FormattedTrack where
  id : JsVal
  title : JsVal
  permalink_url : JsVal
  created_at : JsVal
  duration : String
  playback_count : JsVal
  likes_count : JsVal
  comment_count : JsVal
  genre : JsVal
  description : JsVal
  artwork_url : JsVal
  waveform_url : JsVal
  deriving DecidableEq, Repr

/-- The `user` object written to the output file; the two counts are only part of the
non-empty output. -/
structure OutUser where
  id : JsVal
  username : JsVal
  permalink_url : JsVal
  avatar_url : JsVal
  followers_count : Option JsVal
  track_count : Option JsVal
  deriving DecidableEq, Repr

/-- An element of `formattedTracks` in generate-tracks.js: the spread of the formatted
track, then `embed_url` and `permalink`. -/
structure OutTrack where
  formatted : FormattedTrack
  embed_url : String
  permalink : JsVal
  deriving DecidableEq, Repr

/-- The object handed to `JSON.stringify` and written to the output file. -/
structure FileData where
  user : OutUser
  tracks : List OutTrack
  generated_at : String
  track_count : Nat
  deriving DecidableEq, Repr

/-- A decoded JSON response body (an object), seen through the properties the program
reads: the token fields, the user fields and the track listing. `expires_in` is the
numeric reading of the property (`NaN` when absent); `collection` is the array of
tracks, or `none` when the property is absent. -/
structure Body where
  access_token : JsVal
  expires_in : JsNum
  collection : Option (List RawTrack)
  id : JsVal
  username : JsVal
  permalink_url : JsVal
  avatar_url : JsVal
  followers_count : JsVal
  track_count : JsVal
  deriving DecidableEq, Repr

/-- A request handed to `fetch`. -/
structure Request where
  method : String
  url : String
  headers : List (String × String)
  body : Option String
  deriving DecidableEq, Repr

/-- A response delivered by `fetch`: the status line, and the outcomes of reading the
body with `response.text()` and with `response.json()`. -/
structure Response where
  status : Nat
  statusText : String
  text : Except String String
  json : Except String Body

/-- The getter `response.ok`: the status is in the range 200-299. -/
def Response.ok (r : Response) : Bool :=
  decide (200 ≤ r.status) && decide (r.status ≤ 299)

/-! ## The host: clock, network and file system -/

/-- What the program observes of the world: `now` is `Date.now()` (milliseconds),
`isoNow` is `new Date().toISOString()`, `fetch` performs one HTTP exchange (an `error`
is a rejected promise, with its message) and moves the world on, body reading
included; `writeFile` is `fs/promises.writeFile` applied to the serialised data. -/
structure Host (σ : Type) where
  now : σ → Nat
  isoNow : σ → String
  fetch : Request → σ → Except String Response × σ
  writeFile : String → FileData → σ → Except String Unit × σ

/-- The fields of a `SoundCloudClient` instance. `tokenExpiry` is `null` (`none`) or a
number. -/
structure Client where
  clientId : String
  clientSecret : String
  baseUrl : String
  apiV2Url : String
  tokenUrl : String
  accessToken : JsVal
  tokenExpiry : Option JsNum
  deriving DecidableEq, Repr

/-- The constructor of `SoundCloudClient` (soundcloud.js 7-15). -/
def Client.new (clientId clientSecret : String) : Client :=
  { clientId := clientId
    clientSecret := clientSecret
    baseUrl := "https://api.soundcloud.com"
    apiV2Url := "https://api-v2.soundcloud.com"
    tokenUrl := "https://secure.soundcloud.com/oauth/token"
    accessToken := .null
    tokenExpiry := none }

/-- A call of one of the client's resource methods (instrumentation: the source keeps no
such record). -/
inductive Call where
  | getUser (identifier : String)
  | resolve (soundcloudUrl : String)
  | getUserTracks (userId : JsVal) (limit : JsNum)
  deriving DecidableEq, Repr

/-- The state threaded through the client's methods: the instance, the world, the
requests handed to `fetch` so far and the resource methods called so far. -/
structure Sys (σ : Type) where
  client : Client
  world : σ
  requests : List Request
  calls : List Call

/-- One call of `fetch`: the request is recorded and the host answers. -/
def doFetch {σ : Type} (h : Host σ) (req : Request) (s : Sys σ) : Except String Response × Sys σ :=
  let r := h.fetch req s.world
  (r.1, { s with world := r.2, requests := s.requests ++ [req] })

/-- The guard of line 23:
`this.accessToken && this.tokenExpiry && Date.now() < this.tokenExpiry`. -/
def tokenStillValid {σ : Type} (h : Host σ) (s : Sys σ) : Bool :=
  s.client.accessToken.truthy &&
    (match s.client.tokenExpiry with
     | none => false
     | some e => e.truthy && JsNum.lt (.int (h.now s.world)) e)

/-- The request of the token exchange (soundcloud.js 29-38). -/
def tokenRequest (c : Client) : Request :=
  let credentials := base64 (c.clientId ++ ":" ++ c.clientSecret)
  { method := "POST"
    url := c.tokenUrl
    headers := [("Authorization", "Basic " ++ credentials),
                ("Content-Type", "application/x-www-form-urlencoded")]
    body := some "grant_type=client_credentials" }

/-- The method `getAccessToken` (soundcloud.js 21-54). Every error raised inside the
`try` block is rethrown as `Error getting access token: <message>`. -/
def getAccessToken {σ : Type} (h : Host σ) (s : Sys σ) : Except String JsVal × Sys σ :=
  if tokenStillValid h s then
    (.ok s.client.accessToken, s)
  else
    match doFetch h (tokenRequest s.client) s with
    | (.error m, s1) => (.error ("Error getting access token: " ++ m), s1)
    | (.ok response, s1) =>
      if !response.ok then
        match response.text with
        | .error m => (.error ("Error getting access token: " ++ m), s1)
        | .ok error =>
          (.error ("Error getting access token: " ++
            ("Token request failed: " ++ toString response.status ++ " " ++
              response.statusText ++ " - " ++ error)), s1)
      else
        match response.json with
        | .error m => (.error ("Error getting access token: " ++ m), s1)
        | .ok data =>
          let expiry := JsNum.add (.int (h.now s1.world))
            (JsNum.mul (JsNum.sub data.expires_in (.int 300)) (.int 1000))
          let s2 : Sys σ :=
            { s1 with client :=
                { s1.client with accessToken := data.access_token, tokenExpiry := some expiry } }
          (.ok s2.client.accessToken, s2)

/-- The method `authenticatedRequest (url)` (soundcloud.js 61-75). -/
def authenticatedRequest {σ : Type} (h : Host σ) (url : String) (s : Sys σ) :
    Except String Body × Sys σ :=
  match getAccessToken h s with
  | (.error m, s1) => (.error m, s1)
  | (.ok token, s1) =>
    let req : Request :=
      { method := "GET", url := url, headers := [("Authorization", "OAuth " ++ token.toStr)],
        body := none }
    match doFetch h req s1 with
    | (.error m, s2) => (.error m, s2)
    | (.ok response, s2) =>
      if !response.ok then
        (.error ("API request failed: " ++ toString response.status ++ " " ++
          response.statusText), s2)
      else
        (response.json, s2)

/-- Record a call of a resource method. -/
def Sys.called {σ : Type} (s : Sys σ) (c : Call) : Sys σ :=
  { s with calls := s.calls ++ [c] }

/-- The method `getUser (identifier)` (soundcloud.js 82-90). -/
def getUser {σ : Type} (h : Host σ) (identifier : String) (s : Sys σ) :
    Except String Body × Sys σ :=
  let url := s.client.baseUrl ++ "/users/" ++ identifier
  match authenticatedRequest h url (s.called (.getUser identifier)) with
  | (.ok data, s1) => (.ok data, s1)
  | (.error m, s1) => (.error ("Error fetching user data: " ++ m), s1)

/-- The method `resolve (soundcloudUrl)` (soundcloud.js 97-105). -/
def resolve {σ : Type} (h : Host σ) (soundcloudUrl : String) (s : Sys σ) :
    Except String Body × Sys σ :=
  let url := s.client.baseUrl ++ "/resolve?url=" ++ encodeURIComponent soundcloudUrl
  match authenticatedRequest h url (s.called (.resolve soundcloudUrl)) with
  | (.ok data, s1) => (.ok data, s1)
  | (.error m, s1) => (.error ("Error resolving URL: " ++ m), s1)

/-- The URL requested by `getUserTracks` (soundcloud.js 114). -/
def tracksUrl (c : Client) (userId : JsVal) (limit : JsNum) : String :=
  c.baseUrl ++ "/users/" ++ userId.toStr ++ "/tracks?limit=" ++ limit.toStr ++
    "&linked_partitioning=1"

/-- The method `getUserTracks (userId, limit)` (soundcloud.js 113-122);
`data.collection || []` is the array when the property is there (an array is truthy,
also when empty) and a fresh empty array when it is absent. -/
def getUserTracks {σ : Type} (h : Host σ) (userId : JsVal) (limit : JsNum) (s : Sys σ) :
    Except String (List RawTrack) × Sys σ :=
  let url := tracksUrl s.client userId limit
  match authenticatedRequest h url (s.called (.getUserTracks userId limit)) with
  | (.ok data, s1) =>
    (.ok (match data.collection with
          | some tracks => tracks
          | none => []), s1)
  | (.error m, s1) => (.error ("Error fetching user tracks: " ++ m), s1)

/-- The method `formatTrack (track)` (soundcloud.js 129-144). -/
def formatTrack (track : RawTrack) : FormattedTrack :=
  { id := track.id
    title := track.title
    permalink_url := track.permalink_url
    created_at := track.created_at
    duration := formatDuration track.duration
    playback_count := track.playback_count.or (.num 0)
    likes_count := (track.likes_count.or track.favoritings_count).or (.num 0)
    comment_count := track.comment_count.or (.num 0)
    genre := track.genre.or (.str "Unknown")
    description := track.description.or (.str "")
    artwork_url := track.artwork_url.or .null
    waveform_url := track.waveform_url.or .null }

/-! ## Built-ins used by the entry points -/

/-- White space and line terminators, as trimmed by the numeric reading of a string and
skipped by `parseInt`. -/
def isWhiteSpace (c : Char) : Bool :=
  let n := c.toNat
  (9 ≤ n && n ≤ 13) || n = 32 || n = 160 || n = 5760 || (8192 ≤ n && n ≤ 8202) ||
    n = 8232 || n = 8233 || n = 8239 || n = 8287 || n = 12288 || n = 65279

/-- A decimal digit. -/
def isDecDigit (c : Char) : Bool := 48 ≤ c.toNat && c.toNat ≤ 57

/-- A hexadecimal digit. -/
def isHexDigit (c : Char) : Bool :=
  isDecDigit c || (65 ≤ c.toNat && c.toNat ≤ 70) || (97 ≤ c.toNat && c.toNat ≤ 102)

/-- A non-empty run of characters of one class. -/
def allOf (p : Char → Bool) (cs : List Char) : Bool := !cs.isEmpty && cs.all p

/-- Drop one leading sign. -/
def dropSign : List Char → List Char
  | '+' :: cs => cs
  | '-' :: cs => cs
  | cs => cs

/-- The production StrUnsignedDecimalLiteral without `Infinity`: digits with an optional
fraction, or a fraction alone, then an optional exponent. -/
def isUnsignedDecimal (cs : List Char) : Bool :=
  let mant := cs.takeWhile fun c => c != 'e' && c != 'E'
  let rest := cs.dropWhile fun c => c != 'e' && c != 'E'
  let ip := mant.takeWhile fun c => c != '.'
  let fp := mant.dropWhile fun c => c != '.'
  let mantOk :=
    match fp with
    | [] => allOf isDecDigit ip
    | _ :: frac => (allOf isDecDigit ip && frac.all isDecDigit) || (ip.isEmpty && allOf isDecDigit frac)
  let expOk :=
    match rest with
    | [] => true
    | _ :: e => allOf isDecDigit (dropSign e)
  mantOk && expOk

/-- The production NonDecimalIntegerLiteral: `0b`, `0o` or `0x` and digits of that base. -/
def isNonDecimalInteger : List Char → Bool
  | '0' :: k :: ds =>
    if k = 'x' || k = 'X' then allOf isHexDigit ds
    else if k = 'o' || k = 'O' then allOf (fun c => 48 ≤ c.toNat && c.toNat ≤ 55) ds
    else if k = 'b' || k = 'B' then allOf (fun c => c = '0' || c = '1') ds
    else false
  | _ => false

/-- The built-in `isNaN` applied to a string: the string is converted to a number (white
space trimmed; the empty string is `0`; otherwise a signed decimal literal, `Infinity`,
or an unsigned binary, octal or hexadecimal literal) and the result is `NaN` exactly when
the string is of none of these forms. -/
def isNaN (s : String) : Bool :=
  let cs := ((s.data.dropWhile isWhiteSpace).reverse.dropWhile isWhiteSpace).reverse
  !(cs.isEmpty || dropSign cs = "Infinity".data || isUnsignedDecimal (dropSign cs) ||
      isNonDecimalInteger cs)

/-- The built-in `parseInt (s, 10)`: leading white space is skipped, one sign is read,
then the longest run of decimal digits; `NaN` when that run is empty. -/
def parseInt10 (s : String) : JsNum :=
  let cs := s.data.dropWhile isWhiteSpace
  let ds := (dropSign cs).takeWhile isDecDigit
  if ds.isEmpty then .nan
  else
    let v : Int := Int.ofNat (ds.foldl (fun acc c => 10 * acc + (c.toNat - 48)) 0)
    match cs with
    | '-' :: _ => .int (-v)
    | _ => .int v

/-- The method `String.prototype.startsWith`. -/
def startsWith (s pre : String) : Bool := pre.data.isPrefixOf s.data

/-- The method `Array.prototype.slice (0, end)`: a `NaN` end is `0`, a negative end
counts from the back. -/
def slice0 {α : Type} (xs : List α) : JsNum → List α
  | .nan => []
  | .int e => if e < 0 then xs.take (Int.toNat (xs.length + e)) else xs.take (Int.toNat e)

/-! ## The entry points -/

/-- The environment variables read by the entry points (`process.env`); an unset
variable is `undefined` (`none`). -/
structure Env where
  SOUNDCLOUD_CLIENT_ID : Option String
  SOUNDCLOUD_CLIENT_SECRET : Option String
  SOUNDCLOUD_USERNAME : Option String
  TRACK_LIMIT : Option String
  OUTPUT_FILE : Option String
  EMBED_COLOR : Option String
  EMBED_AUTO_PLAY : Option String
  EMBED_HIDE_RELATED : Option String
  EMBED_SHOW_COMMENTS : Option String
  EMBED_SHOW_USER : Option String
  EMBED_SHOW_REPOSTS : Option String
  EMBED_SHOW_TEASER : Option String
  deriving DecidableEq, Repr

/-- The test `!v` on an environment variable: unset or empty. -/
def envFalsy : Option String → Bool
  | none => true
  | some s => s == ""

/-- The expression `v || d` on an environment variable. -/
def envOr (v : Option String) (d : String) : String :=
  match v with
  | none => d
  | some s => if s == "" then d else s

/-- The state of a running entry point: the client state, standard output and standard
error (one entry per `console.log` or `console.error`), and the `writeFile` calls. -/
structure Proc (σ : Type) where
  sys : Sys σ
  stdout : List String
  stderr : List String
  writes : List (String × FileData)

/-- The state of an entry point right after `new SoundCloudClient(...)`. -/
def Proc.start {σ : Type} (client : Client) (w : σ) : Proc σ :=
  { sys := { client := client, world := w, requests := [], calls := [] },
    stdout := [], stderr := [], writes := [] }

/-- One `console.log`. -/
def Proc.log {σ : Type} (p : Proc σ) (line : String) : Proc σ :=
  { p with stdout := p.stdout ++ [line] }

/-- One `console.error`. -/
def Proc.logError {σ : Type} (p : Proc σ) (line : String) : Proc σ :=
  { p with stderr := p.stderr ++ [line] }

/-- Run a client method inside an entry point. -/
def Proc.run {σ α : Type} (p : Proc σ) (m : Sys σ → Except String α × Sys σ) :
    Except String α × Proc σ :=
  let r := m p.sys
  (r.1, { p with sys := r.2 })

/-- The identifier dispatch of `main` (index.js 30-44). -/
def main.resolveUser {σ : Type} (h : Host σ) (username : String) (p : Proc σ) :
    Except String Body × Proc σ :=
  if startsWith username "http://" || startsWith username "https://" then
    (p.log "Resolving SoundCloud URL...").run (resolve h username)
  else if !isNaN username then
    p.run (getUser h username)
  else
    match p.run (getUser h username) with
    | (.ok user, p1) => (.ok user, p1)
    | (.error _, p1) =>
      let profileUrl := "https://soundcloud.com/" ++ username
      (p1.log ("Failed to fetch by username, trying to resolve: " ++ profileUrl)).run
        (resolve h profileUrl)

/-- The identifier dispatch of `generateTracksJSON` (generate-tracks.js 41-54). -/
def generateTracksJSON.resolveUser {σ : Type} (h : Host σ) (username : String) (p : Proc σ) :
    Except String Body × Proc σ :=
  if startsWith username "http://" || startsWith username "https://" then
    p.run (resolve h username)
  else if !isNaN username then
    p.run (getUser h username)
  else
    match p.run (getUser h username) with
    | (.ok user, p1) => (.ok user, p1)
    | (.error _, p1) =>
      let profileUrl := "https://soundcloud.com/" ++ username
      (p1.log ("Trying to resolve: " ++ profileUrl)).run (resolve h profileUrl)

/-- The embed options read from the environment (generate-tracks.js 18-24). -/
structure EmbedOptions where
  embedColor : String
  embedAutoPlay : Bool
  embedHideRelated : Bool
  embedShowComments : Bool
  embedShowUser : Bool
  embedShowReposts : Bool
  embedShowTeaser : Bool
  deriving DecidableEq, Repr

/-- Lines 18-24 of generate-tracks.js. -/
def EmbedOptions.ofEnv (env : Env) : EmbedOptions :=
  { embedColor := envOr env.EMBED_COLOR "ff5500"
    embedAutoPlay := env.EMBED_AUTO_PLAY == some "true"
    embedHideRelated := env.EMBED_HIDE_RELATED == some "true"
    embedShowComments := env.EMBED_SHOW_COMMENTS != some "false"
    embedShowUser := env.EMBED_SHOW_USER != some "false"
    embedShowReposts := env.EMBED_SHOW_REPOSTS == some "true"
    embedShowTeaser := env.EMBED_SHOW_TEASER != some "false" }

/-- A boolean in a template literal. -/
def boolStr (b : Bool) : String := if b then "true" else "false"

/-- The callback of `tracks.map` (generate-tracks.js 93-105). -/
def renderTrack (o : EmbedOptions) (track : RawTrack) : OutTrack :=
  let formatted := formatTrack track
  let embedUrl := "https://w.soundcloud.com/player/?url=" ++
    encodeURIComponent track.permalink_url.toStr ++ "&color=%23" ++ o.embedColor ++
    "&auto_play=" ++ boolStr o.embedAutoPlay ++ "&hide_related=" ++ boolStr o.embedHideRelated ++
    "&show_comments=" ++ boolStr o.embedShowComments ++ "&show_user=" ++ boolStr o.embedShowUser ++
    "&show_reposts=" ++ boolStr o.embedShowReposts ++ "&show_teaser=" ++ boolStr o.embedShowTeaser
  { formatted := formatted, embed_url := embedUrl, permalink := track.permalink_url }

/-- The filter predicate of line 64:
`track.public === true || track.sharing === 'public'`. -/
def isPublicTrack (track : RawTrack) : Bool :=
  track.public == .bool true || track.sharing == .str "public"

/-- One `writeFile`: the call is recorded and the host answers. -/
def Proc.writeFile {σ : Type} (h : Host σ) (path : String) (data : FileData) (p : Proc σ) :
    Except String Unit × Proc σ :=
  let r := h.writeFile path data p.sys.world
  (r.1, { p with sys := { p.sys with world := r.2 }, writes := p.writes ++ [(path, data)] })

/-- The final `forEach` (generate-tracks.js 128-130): one line per track, numbered from
`index + 1`. -/
def trackLines : Nat → List OutTrack → List String
  | _, [] => []
  | index, t :: ts =>
    ("  " ++ toString (index + 1) ++ ". " ++ t.formatted.title.toStr ++ " (" ++
      t.formatted.duration ++ ")") :: trackLines (index + 1) ts

/-- The `user` object of the empty output (generate-tracks.js 77-82). -/
def emptyUser (user : Body) : OutUser :=
  { id := user.id
    username := user.username
    permalink_url := user.permalink_url
    avatar_url := user.avatar_url
    followers_count := none
    track_count := none }

/-- The `user` object of the output (generate-tracks.js 108-115). -/
def outputUser (user : Body) : OutUser :=
  { id := user.id
    username := user.username
    permalink_url := user.permalink_url
    avatar_url := user.avatar_url
    followers_count := some (user.followers_count.or (.num 0))
    track_count := some (user.track_count.or (.num 0)) }

/-- Lines 56-130 of generate-tracks.js: what `generateTracksJSON` does inside its `try`
block once the user is known. An `error` is an exception reaching the `catch`. -/
def generateTracksJSON.withUser {σ : Type} (h : Host σ) (o : EmbedOptions) (trackLimit : JsNum)
    (outputFile : String) (user : Body) (p : Proc σ) : Except String Unit × Proc σ :=
  let p0 := (p.log ("Found user: " ++ user.username.toStr ++ " (ID: " ++ user.id.toStr ++ ")")).log
    ("Fetching latest tracks (requesting up to " ++ (JsNum.mul trackLimit (.int 3)).toStr ++
      " to filter for " ++ trackLimit.toStr ++ " public tracks)...")
  match p0.run (getUserTracks h user.id (JsNum.mul trackLimit (.int 3))) with
  | (.error m, p1) => (.error m, p1)
  | (.ok allTracks, p1) =>
    let publicTracks := allTracks.filter isPublicTrack
    let tracks := slice0 publicTracks trackLimit
    let p2 := p1.log ("Found " ++ toString publicTracks.length ++ " public tracks (using " ++
      toString tracks.length ++ ")")
    let p3 :=
      if JsNum.lt (.int tracks.length) trackLimit then
        p2.log ("Note: Only " ++ toString tracks.length ++ " public tracks available, requested " ++
          trackLimit.toStr)
      else p2
    if tracks.length = 0 then
      let p4 := p3.log "No tracks found for this user."
      let emptyData : FileData :=
        { user := emptyUser user, tracks := [], generated_at := h.isoNow p4.sys.world,
          track_count := 0 }
      match p4.writeFile h outputFile emptyData with
      | (.error m, p5) => (.error m, p5)
      | (.ok _, p5) => (.ok (), p5.log ("Empty data written to " ++ outputFile))
    else
      let formattedTracks := tracks.map (renderTrack o)
      let output : FileData :=
        { user := outputUser user, tracks := formattedTracks,
          generated_at := h.isoNow p3.sys.world, track_count := formattedTracks.length }
      match p3.writeFile h outputFile output with
      | (.error m, p5) => (.error m, p5)
      | (.ok _, p5) =>
        let p6 := ((p5.log ("\nSuccessfully generated " ++ outputFile)).log
          ("Tracks included: " ++ toString formattedTracks.length)).log
          ("Generated at: " ++ output.generated_at)
        let p7 := p6.log "\nTracks:"
        (.ok (), { p7 with stdout := p7.stdout ++ trackLines 0 formattedTracks })

/-- How a run of an entry point ends: what was printed, requested and written, and the
code passed to `process.exit` (`none` when the function returns). -/
structure Exit (σ : Type) where
  world : σ
  stdout : List String
  stderr : List String
  requests : List Request
  calls : List Call
  writes : List (String × FileData)
  exitCode : Option Nat

/-- Leave an entry point. -/
def Proc.exit {σ : Type} (p : Proc σ) (code : Option Nat) : Exit σ :=
  { world := p.sys.world, stdout := p.stdout, stderr := p.stderr, requests := p.sys.requests,
    calls := p.sys.calls, writes := p.writes, exitCode := code }

/-- The function `generateTracksJSON` (generate-tracks.js 10-135), run in environment
`env` from world `w`. -/
def generateTracksJSON {σ : Type} (h : Host σ) (env : Env) (w : σ) : Exit σ :=
  let clientId := env.SOUNDCLOUD_CLIENT_ID
  let clientSecret := env.SOUNDCLOUD_CLIENT_SECRET
  let username := env.SOUNDCLOUD_USERNAME
  let trackLimit := parseInt10 (envOr env.TRACK_LIMIT "5")
  let outputFile := envOr env.OUTPUT_FILE "tracks.json"
  let o := EmbedOptions.ofEnv env
  if envFalsy clientId || envFalsy clientSecret then
    { world := w, stdout := [],
      stderr := ["Error: SOUNDCLOUD_CLIENT_ID and SOUNDCLOUD_CLIENT_SECRET must be set in .env file"],
      requests := [], calls := [], writes := [], exitCode := some 1 }
  else if envFalsy username then
    { world := w, stdout := [],
      stderr := ["Error: SOUNDCLOUD_USERNAME must be set in .env file"],
      requests := [], calls := [], writes := [], exitCode := some 1 }
  else
    let client := Client.new (clientId.getD "") (clientSecret.getD "")
    let username := username.getD ""
    let p : Proc σ := Proc.start client w
    let p0 := p.log ("Fetching SoundCloud user: " ++ username)
    match generateTracksJSON.resolveUser h username p0 with
    | (.error m, p1) => (p1.logError ("\nError: " ++ m)).exit (some 1)
    | (.ok user, p1) =>
      match generateTracksJSON.withUser h o trackLimit outputFile user p1 with
      | (.error m, p2) => (p2.logError ("\nError: " ++ m)).exit (some 1)
      | (.ok _, p2) => p2.exit none

/-! ## Sample inputs -/

/-- A raw track with no property at all. -/
def bareTrack : RawTrack :=
  { id := .undefined, title := .undefined, permalink_url := .undefined, created_at := .undefined,
    duration := .nan, playback_count := .undefined, likes_count := .undefined,
    favoritings_count := .undefined, comment_count := .undefined, genre := .undefined,
    description := .undefined, artwork_url := .undefined, waveform_url := .undefined,
    public := .undefined, sharing := .undefined }

/-- A track with `likes_count: 0` and the legacy `favoritings_count: 5`. -/
def zeroLikesTrack : RawTrack :=
  { bareTrack with
    id := .num 7, title := .str "Song", duration := .int 125000, likes_count := .num 0,
    favoritings_count := .num 5 }

/-- A body with no property at all. -/
def emptyBody : Body :=
  { access_token := .undefined, expires_in := .nan, collection := none, id := .undefined,
    username := .undefined, permalink_url := .undefined, avatar_url := .undefined,
    followers_count := .undefined, track_count := .undefined }

/-- A user object. -/
def sampleUser : Body :=
  { emptyBody with
    id := .num 12345, username := .str "alice",
    permalink_url := .str "https://soundcloud.com/alice", followers_count := .num 10 }

/-- Four tracks: public, private, public by `sharing` only, public. -/
def sampleTracks : List RawTrack :=
  [ { bareTrack with
      id := .num 1, title := .str "One", duration := .int 125000,
      permalink_url := .str "https://soundcloud.com/alice/one", public := .bool true },
    { bareTrack with
      id := .num 2, title := .str "Two", duration := .int 59999,
      public := .bool false, sharing := .str "private" },
    { bareTrack with
      id := .num 3, title := .str "Three", duration := .int 60000,
      sharing := .str "public" },
    { bareTrack with
      id := .num 4, title := .str "Four", duration := .int 0,
      public := .bool true, sharing := .str "public" } ]

/-- A response with a decodable body. -/
def jsonResponse (status : Nat) (statusText : String) (data : Body) : Response :=
  { status := status, statusText := statusText, text := .ok "", json := .ok data }

/-- A sample API: user `12345` exists, with four tracks; the user lookup by the name
`alice` is refused; user `777` has a track listing without `collection`; every URL can be
resolved to user `12345`. -/
def sampleApi (req : Request) : Response :=
  if req.url = "https://api.soundcloud.com/users/12345" then jsonResponse 200 "OK" sampleUser
  else if req.url = "https://api.soundcloud.com/users/12345/tracks?limit=6&linked_partitioning=1"
  then jsonResponse 200 "OK" { emptyBody with collection := some sampleTracks }
  else if req.url = "https://api.soundcloud.com/users/777/tracks?limit=10&linked_partitioning=1"
  then jsonResponse 200 "OK" emptyBody
  else if startsWith req.url "https://api.soundcloud.com/resolve?url=" then
    jsonResponse 200 "OK" sampleUser
  else jsonResponse 404 "Not Found" emptyBody

/-- A sample host over a clock in milliseconds: the token endpoint grants `tok` for
`expiresIn` seconds, every exchange takes a second, writing a file succeeds. -/
def sampleHost (expiresIn : Int) : Host Nat :=
  { now := fun w => w
    isoNow := fun w => "T+" ++ toString w
    fetch := fun req w =>
      if req.method = "POST" then
        (.ok (jsonResponse 200 "OK"
          { emptyBody with access_token := .str "tok", expires_in := .int expiresIn }), w + 1000)
      else (.ok (sampleApi req), w + 1000)
    writeFile := fun _ _ w => (.ok (), w + 1) }

/-- A fresh client at clock reading `w`. -/
def freshSys (w : Nat) : Sys Nat :=
  { client := Client.new "id" "secret", world := w, requests := [], calls := [] }

/-- A client holding the token `tok` until `expiry`, at clock reading `w`. -/
def cachedSys (expiry : Int) (w : Nat) : Sys Nat :=
  { client := { Client.new "id" "secret" with
      accessToken := .str "tok", tokenExpiry := some (.int expiry) }
    world := w, requests := [], calls := [] }

/-- A configured environment: user `alice`, two tracks wanted. -/
def sampleEnv : Env :=
  { SOUNDCLOUD_CLIENT_ID := some "id", SOUNDCLOUD_CLIENT_SECRET := some "secret",
    SOUNDCLOUD_USERNAME := some "alice", TRACK_LIMIT := some "2", OUTPUT_FILE := none,
    EMBED_COLOR := none, EMBED_AUTO_PLAY := none, EMBED_HIDE_RELATED := none,
    EMBED_SHOW_COMMENTS := none, EMBED_SHOW_USER := none, EMBED_SHOW_REPOSTS := none,
    EMBED_SHOW_TEASER := none }

/-! ## Evaluation checks of the built-ins -/

example : formatDuration (.int 125000) = "2:05" := by decide
example : formatDuration (.int (-500)) = "-1:-1" := by decide
example : formatDuration .nan = "NaN:NaN" := by decide
example : base64 "id:secret" = "aWQ6c2VjcmV0" := by decide
example : base64 "ab" = "YWI=" := by decide
example : encodeURIComponent "https://soundcloud.com/a b" = "https%3A%2F%2Fsoundcloud.com%2Fa%20b" := by
  decide
example : isNaN "12345" = false := by decide
example : isNaN "alice" = true := by decide
example : isNaN " 123" = false := by decide
example : isNaN "1e2" = false := by decide
example : isNaN "1e" = true := by decide
example : isNaN "-.5E+3" = false := by decide
example : isNaN "0x1F" = false := by decide
example : isNaN "-0x1F" = true := by decide
example : isNaN "." = true := by decide
example : isNaN "5." = false := by decide
example : isNaN "+" = true := by decide
example : isNaN "12px" = true := by decide
example : parseInt10 "5" = .int 5 := by decide
example : parseInt10 " -12px" = .int (-12) := by decide
example : parseInt10 "abc" = .nan := by decide

/-! ## Duration formatting -/

theorem padStart_two_digits (s : Nat) (hs : s < 60) :
    padStart (toString (Int.ofNat s)) 2 '0' = String.mk [digitChar (s / 10), digitChar (s % 10)] := by
  interval_cases s <;> decide

/-- The guard of `getAccessToken` fails when there is no usable token, no expiry, or the
expiry is not after the current time. -/
theorem tokenStillValid_eq_false {σ : Type} (h : Host σ) (s : Sys σ)
    (hStale : s.client.accessToken.truthy = false ∨ s.client.tokenExpiry = none ∨
      ∃ x : Int, s.client.tokenExpiry = some (.int x) ∧ x ≤ (h.now s.world : Int)) :
    tokenStillValid h s = false := by
  rcases hStale with h1 | h2 | ⟨x, hx, hle⟩
  · simp [tokenStillValid, h1]
  · simp [tokenStillValid, h2]
  · simp only [tokenStillValid, hx, JsNum.lt, Bool.and_eq_false_imp]
    intro _ _
    exact decide_eq_false (not_lt.mpr hle)

/-- What `getAccessToken` does when its guard fails and the exchange succeeds. -/
theorem getAccessToken_exchange {σ : Type} (h : Host σ) (s : Sys σ) (resp : Response)
    (data : Body) (w1 : σ) (hGuard : tokenStillValid h s = false)
    (hFetch : h.fetch (tokenRequest s.client) s.world = (.ok resp, w1))
    (hOk : resp.ok = true) (hJson : resp.json = .ok data) :
    getAccessToken h s =
      (.ok data.access_token,
        { client := { s.client with
            accessToken := data.access_token
            tokenExpiry := some (JsNum.add (.int ((h.now w1 : Int)))
              (JsNum.mul (JsNum.sub data.expires_in (.int 300)) (.int 1000))) }
          world := w1
          requests := s.requests ++ [tokenRequest s.client]
          calls := s.calls }) := by
  simp [getAccessToken, hGuard, doFetch, hFetch, hOk, hJson]

/-- C3. Token reuse: in a client state holding a cached token (a truthy value, such as any
non-empty string) and an expiry `x` with the current time strictly before `x`,
`getAccessToken` returns the cached token, hands no request to `fetch`, and leaves the
whole state, `accessToken` and `tokenExpiry` included, as it was. -/
theorem getAccessToken_reuses_unexpired_token {σ : Type} (h : Host σ) (s : Sys σ) (x : Int)
    (hTok : s.client.accessToken.truthy = true)
    (hExp : s.client.tokenExpiry = some (.int x))
    (hNow : (h.now s.world : Int) < x) :
    (getAccessToken h s).1 = .ok s.client.accessToken ∧
    (getAccessToken h s).2.requests = s.requests ∧
    (getAccessToken h s).2.client.accessToken = s.client.accessToken ∧
    (getAccessToken h s).2.client.tokenExpiry = s.client.tokenExpiry ∧
    (getAccessToken h s).2 = s := by
  have hx : x ≠ 0 := by
    omega
  have hGuard : tokenStillValid h s = true := by
    simp [tokenStillValid, hTok, hExp, JsNum.truthy, JsNum.lt, hx, hNow]
  simp [getAccessToken, hGuard]

/-- When the guard fails, `getAccessToken` hands exactly the token request to `fetch`,
whatever the outcome of the exchange. -/
theorem getAccessToken_requests_of_stale {σ : Type} (h : Host σ) (s : Sys σ)
    (hGuard : tokenStillValid h s = false) :
    (getAccessToken h s).2.requests = s.requests ++ [tokenRequest s.client] := by
  unfold getAccessToken
  simp only [hGuard, Bool.false_eq_true, if_false, doFetch]
  cases hf : (h.fetch (tokenRequest s.client) s.world).1 with
  | error m => simp
  | ok response =>
    cases hok : response.ok with
    | false =>
      cases hx : response.text <;> simp [hok, hx]
    | true =>
      cases hj : response.json <;> simp [hok, hj]

/-- C5. When a successful exchange reports `expires_in = e` with `e ≤ 300`, the stored expiry
is not after the acquisition time, so a later `getAccessToken` on that client, at any
clock reading not earlier than the acquisition time, fails the guard and hands a new
token request to `fetch` instead of answering from the cache. -/
theorem short_expiry_forces_new_exchange {σ : Type} (h : Host σ) (s : Sys σ)
    (resp : Response) (data : Body) (w1 : σ) (e : Int)
    (hStale : s.client.accessToken.truthy = false ∨ s.client.tokenExpiry = none ∨
      ∃ x : Int, s.client.tokenExpiry = some (.int x) ∧ x ≤ (h.now s.world : Int))
    (hFetch : h.fetch (tokenRequest s.client) s.world = (.ok resp, w1))
    (hOk : resp.ok = true) (hJson : resp.json = .ok data)
    (hE : data.expires_in = .int e) (he : e ≤ 300)
    (later : Sys σ) (hClient : later.client = (getAccessToken h s).2.client)
    (hTime : h.now w1 ≤ h.now later.world) :
    (∃ x : Int, (getAccessToken h s).2.client.tokenExpiry = some (.int x) ∧
      x ≤ (h.now w1 : Int)) ∧
    tokenStillValid h later = false ∧
    (getAccessToken h later).2.requests = later.requests ++ [tokenRequest later.client] := by
  have hx := getAccessToken_exchange h s resp data w1 (tokenStillValid_eq_false h s hStale)
    hFetch hOk hJson
  have hExp : (getAccessToken h s).2.client.tokenExpiry =
      some (.int ((h.now w1 : Int) + (e - 300) * 1000)) := by
    rw [hx]; simp [hE, JsNum.sub, JsNum.mul, JsNum.add]
  have hle : (h.now w1 : Int) + (e - 300) * 1000 ≤ (h.now w1 : Int) := by omega
  have hGuard : tokenStillValid h later = false := by
    apply tokenStillValid_eq_false
    refine Or.inr (Or.inr ⟨_, by rw [hClient, hExp], ?_⟩)
    have : (h.now w1 : Int) ≤ (h.now later.world : Int) := by exact_mod_cast hTime
    omega
  exact ⟨⟨_, hExp, hle⟩, hGuard, getAccessToken_requests_of_stale h later hGuard⟩

/-! ## Resource operations -/

/-- C9. Error wrapping: when the token is available and the GET of `/users/{identifier}` is
answered with a status `c` outside 200-299 and status text `st`, `getUser` fails (it
returns no value) with the message
`Error fetching user data: API request failed: c st`, which starts with
`Error fetching user data: ` and contains `st`; exactly one GET was handed to `fetch`
after the token was obtained (no retry). -/
theorem getUser_wraps_api_error {σ : Type} (h : Host σ) (identifier : String) (s s1 : Sys σ)
    (token : JsVal) (resp : Response) (w2 : σ)
    (hToken : getAccessToken h (s.called (.getUser identifier)) = (.ok token, s1))
    (hFetch : h.fetch
      { method := "GET", url := s.client.baseUrl ++ "/users/" ++ identifier,
        headers := [("Authorization", "OAuth " ++ token.toStr)], body := none } s1.world =
      (.ok resp, w2))
    (hStatus : resp.status < 200 ∨ 299 < resp.status) :
    (getUser h identifier s).1 =
      .error ("Error fetching user data: API request failed: " ++ toString resp.status ++ " " ++
        resp.statusText) ∧
    (∀ m, (getUser h identifier s).1 = .error m →
      "Error fetching user data: ".data <+: m.data ∧ resp.statusText.data <:+: m.data) ∧
    (∀ user, (getUser h identifier s).1 ≠ .ok user) ∧
    (getUser h identifier s).2.requests = s1.requests ++
      [{ method := "GET", url := s.client.baseUrl ++ "/users/" ++ identifier,
         headers := [("Authorization", "OAuth " ++ token.toStr)], body := none }] := by
  have hNotOk : resp.ok = false := by
    simp only [Response.ok, Bool.and_eq_false_imp, decide_eq_true_eq, decide_eq_false_iff_not]
    omega
  have hRun : getUser h identifier s =
      (.error ("Error fetching user data: API request failed: " ++ toString resp.status ++ " " ++
        resp.statusText),
       { s1 with world := w2, requests := s1.requests ++
          [{ method := "GET", url := s.client.baseUrl ++ "/users/" ++ identifier,
             headers := [("Authorization", "OAuth " ++ token.toStr)], body := none }] }) := by
    have hb : (s.called (.getUser identifier)).client.baseUrl = s.client.baseUrl := rfl
    simp only [getUser, authenticatedRequest, hToken, doFetch, hb, hFetch, hNotOk]
    simp only [String.append_assoc, Bool.not_false, if_true]
    rw [← String.append_assoc "Error fetching user data: "]
    rfl
  rw [hRun]
  refine ⟨rfl, ?_, by simp, rfl⟩
  intro m hm
  simp only [Except.error.injEq] at hm
  subst hm
  constructor
  · exact ⟨("API request failed: " ++ toString resp.status ++ " " ++ resp.statusText).data, by
      simp [String.data_append]⟩
  · exact ⟨("Error fetching user data: API request failed: " ++ toString resp.status ++ " ").data,
      [], by simp [String.data_append]⟩

/-- C7. Missing-field defaults of `formatTrack`: a missing `genre` becomes `Unknown`, a
missing `comment_count` or `playback_count` becomes `0`, a missing `description` becomes
the empty string, a missing `artwork_url` or `waveform_url` becomes `null`; `id`, `title`,
`permalink_url` and `created_at` are copied as they are. -/
theorem formatTrack_missing_field_defaults (track : RawTrack) :
    (track.genre = .undefined → track.comment_count = .undefined →
      track.playback_count = .undefined →
        (formatTrack track).genre = .str "Unknown" ∧ (formatTrack track).comment_count = .num 0 ∧
          (formatTrack track).playback_count = .num 0) ∧
    (track.description = .undefined → (formatTrack track).description = .str "") ∧
    (track.artwork_url = .undefined → (formatTrack track).artwork_url = .null) ∧
    (track.waveform_url = .undefined → (formatTrack track).waveform_url = .null) ∧
    (formatTrack track).id = track.id ∧ (formatTrack track).title = track.title ∧
    (formatTrack track).permalink_url = track.permalink_url ∧
    (formatTrack track).created_at = track.created_at := by
  refine ⟨?_, ?_, ?_, ?_, rfl, rfl, rfl, rfl⟩
  · intro hg hc hp
    simp [formatTrack, hg, hc, hp, JsVal.or, JsVal.truthy]
  · intro hd
    simp [formatTrack, hd, JsVal.or, JsVal.truthy]
  · intro ha
    simp [formatTrack, ha, JsVal.or, JsVal.truthy]
  · intro hw
    simp [formatTrack, hw, JsVal.or, JsVal.truthy]

/-- C6, as stated, fails: a track whose `likes_count` is present with value `0` and whose
`favoritings_count` is `5` is formatted with `likes_count = 5`, not with its own
`likes_count`. -/
theorem formatTrack_likes_zero_falls_through :
    zeroLikesTrack.likes_count = .num 0 ∧ zeroLikesTrack.likes_count ≠ .undefined ∧
    (formatTrack zeroLikesTrack).likes_count = .num 5 ∧
    (formatTrack zeroLikesTrack).likes_count ≠ zeroLikesTrack.likes_count := by
  decide

/-- C6, amended. The `likes_count` of `formatTrack(track)` is the track's `likes_count` when
that is truthy (for a number: non-zero), otherwise the track's `favoritings_count` when
that is truthy, otherwise `0`; `playback_count` and `comment_count` are the track's own
value when it is truthy and `0` otherwise, so a numeric value is always kept (`0` stays
`0`) and a missing field becomes `0`. -/
theorem formatTrack_counts (track : RawTrack) :
    (formatTrack track).likes_count =
      (if track.likes_count.truthy then track.likes_count
       else if track.favoritings_count.truthy then track.favoritings_count
       else .num 0) ∧
    (formatTrack track).playback_count =
      (if track.playback_count.truthy then track.playback_count else .num 0) ∧
    (formatTrack track).comment_count =
      (if track.comment_count.truthy then track.comment_count else .num 0) ∧
    (∀ n : Int, n ≠ 0 → track.likes_count = .num n → (formatTrack track).likes_count = .num n) ∧
    (∀ n : Int, track.playback_count = .num n → (formatTrack track).playback_count = .num n) ∧
    (∀ n : Int, track.comment_count = .num n → (formatTrack track).comment_count = .num n) ∧
    (track.likes_count = .undefined → track.favoritings_count = .undefined →
      (formatTrack track).likes_count = .num 0) ∧
    (track.playback_count = .undefined → (formatTrack track).playback_count = .num 0) ∧
    (track.comment_count = .undefined → (formatTrack track).comment_count = .num 0) := by
  refine ⟨?_, rfl, rfl, ?_, ?_, ?_, ?_, ?_, ?_⟩
  · simp only [formatTrack, JsVal.or]
    split_ifs <;> simp_all
  · intro n hn hl
    simp [formatTrack, JsVal.or, JsVal.truthy, hl, hn]
  · intro n hp
    by_cases hn : n = 0 <;> simp [formatTrack, JsVal.or, JsVal.truthy, hp, hn]
  · intro n hc
    by_cases hn : n = 0 <;> simp [formatTrack, JsVal.or, JsVal.truthy, hc, hn]
  · intro hl hf
    simp [formatTrack, JsVal.or, JsVal.truthy, hl, hf]
  · intro hp
    simp [formatTrack, JsVal.or, JsVal.truthy, hp]
  · intro hc
    simp [formatTrack, JsVal.or, JsVal.truthy, hc]

/-! ## Identifier dispatch -/

/-- The method `getAccessToken` calls no resource method. -/
theorem getAccessToken_calls {σ : Type} (h : Host σ) (s : Sys σ) :
    (getAccessToken h s).2.calls = s.calls := by
  unfold getAccessToken
  simp only [doFetch]
  cases hg : tokenStillValid h s with
  | true => simp
  | false =>
    simp only [Bool.false_eq_true, if_false]
    cases hf : (h.fetch (tokenRequest s.client) s.world).1 with
    | error m => simp
    | ok response =>
      cases hok : response.ok with
      | false => cases hx : response.text <;> simp [hok, hx]
      | true => cases hj : response.json <;> simp [hok, hj]

/-- The method `authenticatedRequest` calls no resource method. -/
theorem authenticatedRequest_calls {σ : Type} (h : Host σ) (url : String) (s : Sys σ) :
    (authenticatedRequest h url s).2.calls = s.calls := by
  have hc := getAccessToken_calls h s
  unfold authenticatedRequest
  rcases hg : getAccessToken h s with ⟨r, s1⟩
  rw [hg] at hc
  cases r with
  | error m => simpa using hc
  | ok token =>
    simp only [doFetch]
    generalize h.fetch _ s1.world = fr
    rcases fr with ⟨r, w2⟩
    cases r with
    | error m => simpa using hc
    | ok response =>
      cases hok : response.ok <;> simpa [hok] using hc

/-- A call of `getUser` is one call of a resource method. -/
theorem getUser_calls {σ : Type} (h : Host σ) (identifier : String) (s : Sys σ) :
    (getUser h identifier s).2.calls = s.calls ++ [.getUser identifier] := by
  have hc := authenticatedRequest_calls h (s.client.baseUrl ++ "/users/" ++ identifier)
    (s.called (.getUser identifier))
  simp only [getUser]
  rcases hg : authenticatedRequest h (s.client.baseUrl ++ "/users/" ++ identifier)
    (s.called (.getUser identifier)) with ⟨r, s1⟩
  rw [hg] at hc
  cases r <;> simpa [Sys.called] using hc

/-- A call of `resolve` is one call of a resource method. -/
theorem resolve_calls {σ : Type} (h : Host σ) (soundcloudUrl : String) (s : Sys σ) :
    (resolve h soundcloudUrl s).2.calls = s.calls ++ [.resolve soundcloudUrl] := by
  have hc := authenticatedRequest_calls h
    (s.client.baseUrl ++ "/resolve?url=" ++ encodeURIComponent soundcloudUrl)
    (s.called (.resolve soundcloudUrl))
  simp only [resolve]
  rcases hg : authenticatedRequest h
    (s.client.baseUrl ++ "/resolve?url=" ++ encodeURIComponent soundcloudUrl)
    (s.called (.resolve soundcloudUrl)) with ⟨r, s1⟩
  rw [hg] at hc
  cases r <;> simpa [Sys.called] using hc

/-- A call of `getUserTracks` is one call of a resource method. -/
theorem getUserTracks_calls {σ : Type} (h : Host σ) (userId : JsVal) (limit : JsNum)
    (s : Sys σ) :
    (getUserTracks h userId limit s).2.calls = s.calls ++ [.getUserTracks userId limit] := by
  have hc := authenticatedRequest_calls h (tracksUrl s.client userId limit)
    (s.called (.getUserTracks userId limit))
  simp only [getUserTracks]
  rcases hg : authenticatedRequest h (tracksUrl s.client userId limit)
    (s.called (.getUserTracks userId limit)) with ⟨r, s1⟩
  rw [hg] at hc
  cases r <;> simpa [Sys.called] using hc

/-- C2. Identifier dispatch, in `main` and in `generateTracksJSON` alike, for every input
string `s`: when `s` starts with `http://` or `https://` the only resource call is
`resolve(s)`; otherwise, when `s` reads as a number (`isNaN(s)` is false), the only
resource call is `getUser(s)` and its outcome, a failure included, is the outcome of the
dispatch; otherwise `getUser(s)` is called first, a success ends the dispatch with no
further call, and a failure is followed by `resolve("https://soundcloud.com/" ++ s)`,
whose outcome, a failure included, is the outcome of the dispatch. -/
theorem identifier_dispatch {σ : Type} (h : Host σ) (s : String) (p : Proc σ) :
    ((startsWith s "http://" || startsWith s "https://") = true →
      main.resolveUser h s p = (p.log "Resolving SoundCloud URL...").run (resolve h s) ∧
      (main.resolveUser h s p).2.sys.calls = p.sys.calls ++ [.resolve s] ∧
      generateTracksJSON.resolveUser h s p = p.run (resolve h s) ∧
      (generateTracksJSON.resolveUser h s p).2.sys.calls = p.sys.calls ++ [.resolve s]) ∧
    ((startsWith s "http://" || startsWith s "https://") = false → isNaN s = false →
      main.resolveUser h s p = p.run (getUser h s) ∧
      (main.resolveUser h s p).2.sys.calls = p.sys.calls ++ [.getUser s] ∧
      generateTracksJSON.resolveUser h s p = p.run (getUser h s) ∧
      (generateTracksJSON.resolveUser h s p).2.sys.calls = p.sys.calls ++ [.getUser s]) ∧
    ((startsWith s "http://" || startsWith s "https://") = false → isNaN s = true →
      (∀ user, (getUser h s p.sys).1 = .ok user →
        main.resolveUser h s p = p.run (getUser h s) ∧
        (main.resolveUser h s p).2.sys.calls = p.sys.calls ++ [.getUser s] ∧
        generateTracksJSON.resolveUser h s p = p.run (getUser h s) ∧
        (generateTracksJSON.resolveUser h s p).2.sys.calls = p.sys.calls ++ [.getUser s]) ∧
      (∀ m, (getUser h s p.sys).1 = .error m →
        main.resolveUser h s p =
          ((p.run (getUser h s)).2.log
            ("Failed to fetch by username, trying to resolve: " ++
              ("https://soundcloud.com/" ++ s))).run
            (resolve h ("https://soundcloud.com/" ++ s)) ∧
        (main.resolveUser h s p).2.sys.calls =
          p.sys.calls ++ [.getUser s, .resolve ("https://soundcloud.com/" ++ s)] ∧
        generateTracksJSON.resolveUser h s p =
          ((p.run (getUser h s)).2.log
            ("Trying to resolve: " ++ ("https://soundcloud.com/" ++ s))).run
            (resolve h ("https://soundcloud.com/" ++ s)) ∧
        (generateTracksJSON.resolveUser h s p).2.sys.calls =
          p.sys.calls ++ [.getUser s, .resolve ("https://soundcloud.com/" ++ s)])) := by
  refine ⟨fun hUrl => ?_, fun hUrl hNum => ?_, fun hUrl hNum => ⟨fun user hu => ?_, fun m hm => ?_⟩⟩
  · have e1 : main.resolveUser h s p =
        (p.log "Resolving SoundCloud URL...").run (resolve h s) := by
      simp only [main.resolveUser, hUrl, if_true]
    have e2 : generateTracksJSON.resolveUser h s p = p.run (resolve h s) := by
      simp only [generateTracksJSON.resolveUser, hUrl, if_true]
    refine ⟨e1, ?_, e2, ?_⟩
    · rw [e1]; exact resolve_calls h s _
    · rw [e2]; exact resolve_calls h s _
  · have e1 : main.resolveUser h s p = p.run (getUser h s) := by
      simp [main.resolveUser, hUrl, hNum]
    have e2 : generateTracksJSON.resolveUser h s p = p.run (getUser h s) := by
      simp [generateTracksJSON.resolveUser, hUrl, hNum]
    refine ⟨e1, ?_, e2, ?_⟩
    · rw [e1]; exact getUser_calls h s _
    · rw [e2]; exact getUser_calls h s _
  · have hr : p.run (getUser h s) = (.ok user, (p.run (getUser h s)).2) := by
      simp only [Proc.run] at *
      rw [← hu]
    have e1 : main.resolveUser h s p = p.run (getUser h s) := by
      simp only [main.resolveUser, hUrl, hNum]
      rw [hr]; simp
    have e2 : generateTracksJSON.resolveUser h s p = p.run (getUser h s) := by
      simp only [generateTracksJSON.resolveUser, hUrl, hNum]
      rw [hr]; simp
    refine ⟨e1, ?_, e2, ?_⟩
    · rw [e1]; exact getUser_calls h s _
    · rw [e2]; exact getUser_calls h s _
  · have hr : p.run (getUser h s) = (.error m, (p.run (getUser h s)).2) := by
      simp only [Proc.run] at *
      rw [← hm]
    have hc : (p.run (getUser h s)).2.sys.calls = p.sys.calls ++ [.getUser s] :=
      getUser_calls h s _
    have e1 : main.resolveUser h s p =
        ((p.run (getUser h s)).2.log
          ("Failed to fetch by username, trying to resolve: " ++
            ("https://soundcloud.com/" ++ s))).run
          (resolve h ("https://soundcloud.com/" ++ s)) := by
      simp only [main.resolveUser, hUrl, hNum]
      rw [hr]; simp
    have e2 : generateTracksJSON.resolveUser h s p =
        ((p.run (getUser h s)).2.log
          ("Trying to resolve: " ++ ("https://soundcloud.com/" ++ s))).run
          (resolve h ("https://soundcloud.com/" ++ s)) := by
      simp only [generateTracksJSON.resolveUser, hUrl, hNum]
      rw [hr]; simp
    refine ⟨e1, ?_, e2, ?_⟩
    · rw [e1]
      have := resolve_calls h ("https://soundcloud.com/" ++ s)
        ((p.run (getUser h s)).2.log
          ("Failed to fetch by username, trying to resolve: " ++
            ("https://soundcloud.com/" ++ s))).sys
      simp only [Proc.run, Proc.log] at this hc ⊢
      rw [this, hc]; simp
    · rw [e2]
      have := resolve_calls h ("https://soundcloud.com/" ++ s)
        ((p.run (getUser h s)).2.log
          ("Trying to resolve: " ++ ("https://soundcloud.com/" ++ s))).sys
      simp only [Proc.run, Proc.log] at this hc ⊢
      rw [this, hc]; simp

/-! ## Public-track selection -/

/-- With a non-negative count, `slice(0, n)` keeps the first `n` elements. -/
theorem slice0_nat {α : Type} (xs : List α) (n : Nat) : slice0 xs (.int (n : Int)) = xs.take n := by
  simp [slice0]

/-- The identifier dispatch of `generateTracksJSON` writes no file. -/
theorem generateTracksJSON.resolveUser_writes {σ : Type} (h : Host σ) (username : String)
    (p : Proc σ) : (generateTracksJSON.resolveUser h username p).2.writes = p.writes := by
  unfold generateTracksJSON.resolveUser
  split_ifs
  · rfl
  · rfl
  · rcases hg : p.run (getUser h username) with ⟨r, p1⟩
    have hw : p1.writes = p.writes := by
      have := congrArg (fun x => x.2.writes) hg
      simpa [Proc.run] using this.symm
    cases r <;> simp [Proc.run, Proc.log, hw]

/-- After the user is known, `generateTracksJSON` makes exactly one resource call: it asks
`getUserTracks` for three times the desired count. -/
theorem generateTracksJSON.withUser_calls {σ : Type} (h : Host σ) (o : EmbedOptions) (n : Nat)
    (outputFile : String) (user : Body) (p : Proc σ) :
    (generateTracksJSON.withUser h o (.int (n : Int)) outputFile user p).2.sys.calls =
      p.sys.calls ++ [.getUserTracks user.id (.int (3 * (n : Int)))] := by
  have hc := getUserTracks_calls h user.id (.int ((n : Int) * 3)) p.sys
  rw [mul_comm 3 (n : Int)]
  simp only [generateTracksJSON.withUser, JsNum.mul, Proc.run, Proc.log, Proc.writeFile]
  rcases hg : getUserTracks h user.id (.int ((n : Int) * 3)) p.sys with ⟨r, s2⟩
  rw [hg] at hc
  cases r with
  | error m => simpa using hc
  | ok allTracks =>
    simp only []
    split_ifs
    all_goals
      generalize h.writeFile _ _ _ = fr
      rcases fr with ⟨r, w3⟩
      cases r <;> simpa using hc

/-- After the user is known and `getUserTracks` has returned `allTracks`,
`generateTracksJSON` calls `writeFile` once, with the first `n` public tracks, rendered. -/
theorem generateTracksJSON.withUser_writes {σ : Type} (h : Host σ) (o : EmbedOptions) (n : Nat)
    (outputFile : String) (user : Body) (p : Proc σ) (allTracks : List RawTrack) (s2 : Sys σ)
    (hTracks : getUserTracks h user.id (.int (3 * (n : Int))) p.sys = (.ok allTracks, s2)) :
    ∃ data : FileData,
      (generateTracksJSON.withUser h o (.int (n : Int)) outputFile user p).2.writes =
        p.writes ++ [(outputFile, data)] ∧
      data.tracks = ((allTracks.filter isPublicTrack).take n).map (renderTrack o) ∧
      data.track_count = ((allTracks.filter isPublicTrack).take n).length := by
  rw [mul_comm 3 (n : Int)] at hTracks
  simp only [generateTracksJSON.withUser, JsNum.mul, Proc.run, Proc.log, Proc.writeFile, hTracks,
    slice0_nat]
  by_cases hlen : ((allTracks.filter isPublicTrack).take n).length = 0
  · have hnil : (allTracks.filter isPublicTrack).take n = [] := List.length_eq_zero.mp hlen
    simp only [hlen, if_true]
    split_ifs
    all_goals
      generalize h.writeFile _ _ _ = fr
      rcases fr with ⟨r, w3⟩
      cases r <;> exact ⟨_, rfl, by simp [hnil], by simp [hnil]⟩
  · simp only [hlen, if_false]
    split_ifs
    all_goals
      generalize h.writeFile _ _ _ = fr
      rcases fr with ⟨r, w3⟩
      cases r <;> exact ⟨_, rfl, rfl, by simp⟩

example : ((generateTracksJSON (sampleHost 3600) sampleEnv 0).writes.map
    fun f => (f.1, f.2.tracks.map fun t => (t.formatted.id, t.formatted.duration))) =
    [("tracks.json", [(.num 1, "2:05"), (.num 3, "1:00")])] := by
  rfl

example : (generateTracksJSON (sampleHost 3600) sampleEnv 0).calls =
    [.getUser "alice", .resolve "https://soundcloud.com/alice",
      .getUserTracks (.num 12345) (.int 6)] := by
  rfl

/-! ## The theorems at sample inputs -/

/-- The dispatch theorem at `https://soundcloud.com/alice`, at `12345` and at `alice`, whose
lookup by name is refused by the sample API. -/
theorem identifier_dispatch_witness :
    (main.resolveUser (sampleHost 3600) "https://soundcloud.com/alice"
      (Proc.start (Client.new "id" "secret") 0)).2.sys.calls =
        [.resolve "https://soundcloud.com/alice"] ∧
    (generateTracksJSON.resolveUser (sampleHost 3600) "12345"
      (Proc.start (Client.new "id" "secret") 0)).2.sys.calls = [.getUser "12345"] ∧
    (main.resolveUser (sampleHost 3600) "alice"
      (Proc.start (Client.new "id" "secret") 0)).2.sys.calls =
        [.getUser "alice", .resolve "https://soundcloud.com/alice"] ∧
    (generateTracksJSON.resolveUser (sampleHost 3600) "alice"
      (Proc.start (Client.new "id" "secret") 0)).2.sys.calls =
        [.getUser "alice", .resolve "https://soundcloud.com/alice"] :=
  ⟨((identifier_dispatch (sampleHost 3600) "https://soundcloud.com/alice"
      (Proc.start (Client.new "id" "secret") 0)).1 (by decide)).2.1,
   ((identifier_dispatch (sampleHost 3600) "12345"
      (Proc.start (Client.new "id" "secret") 0)).2.1 (by decide) (by decide)).2.2.2,
   (((identifier_dispatch (sampleHost 3600) "alice"
      (Proc.start (Client.new "id" "secret") 0)).2.2 (by decide) (by decide)).2
        "Error fetching user data: API request failed: 404 Not Found" rfl).2.1,
   (((identifier_dispatch (sampleHost 3600) "alice"
      (Proc.start (Client.new "id" "secret") 0)).2.2 (by decide) (by decide)).2
        "Error fetching user data: API request failed: 404 Not Found" rfl).2.2.2⟩

/-- Token reuse at a client holding `tok` until 5000, at clock reading 1000. -/
theorem getAccessToken_reuses_unexpired_token_witness :
    (getAccessToken (sampleHost 3600) (cachedSys 5000 1000)).1 = .ok (.str "tok") ∧
    (getAccessToken (sampleHost 3600) (cachedSys 5000 1000)).2.requests = [] :=
  have hw := getAccessToken_reuses_unexpired_token (sampleHost 3600) (cachedSys 5000 1000) 5000
    rfl rfl (by decide)
  ⟨hw.1, hw.2.1⟩

/-- A grant of 100 seconds at clock reading 1000 stores the expiry 1000 - 200000; a call at
clock reading 5000 exchanges again. -/
theorem short_expiry_forces_new_exchange_witness :
    tokenStillValid (sampleHost 100)
      { (getAccessToken (sampleHost 100) (freshSys 0)).2 with world := 5000 } = false ∧
    (getAccessToken (sampleHost 100)
      { (getAccessToken (sampleHost 100) (freshSys 0)).2 with world := 5000 }).2.requests =
      [tokenRequest (Client.new "id" "secret"), tokenRequest (Client.new "id" "secret")] :=
  have hw := short_expiry_forces_new_exchange (sampleHost 100) (freshSys 0)
    (jsonResponse 200 "OK" { emptyBody with access_token := .str "tok", expires_in := .int 100 })
    { emptyBody with access_token := .str "tok", expires_in := .int 100 } 1000 100
    (Or.inl rfl) rfl rfl rfl rfl (by decide)
    { (getAccessToken (sampleHost 100) (freshSys 0)).2 with world := 5000 } rfl (by decide)
  ⟨hw.2.1, hw.2.2⟩

/-- The amended count rules at a track with `likes_count: 0`, `favoritings_count: 5` and no
`playback_count`. -/
theorem formatTrack_counts_witness :
    (formatTrack zeroLikesTrack).likes_count = .num 5 ∧
    (formatTrack zeroLikesTrack).playback_count = .num 0 ∧
    (formatTrack zeroLikesTrack).comment_count = .num 0 :=
  ⟨(formatTrack_counts zeroLikesTrack).1,
   (formatTrack_counts zeroLikesTrack).2.2.2.2.2.2.2.1 rfl,
   (formatTrack_counts zeroLikesTrack).2.2.2.2.2.2.2.2 rfl⟩

/-- The defaults at a track with no property at all. -/
theorem formatTrack_missing_field_defaults_witness :
    (formatTrack bareTrack).genre = .str "Unknown" ∧
    (formatTrack bareTrack).comment_count = .num 0 ∧
    (formatTrack bareTrack).playback_count = .num 0 ∧
    (formatTrack bareTrack).description = .str "" ∧
    (formatTrack bareTrack).artwork_url = .null ∧
    (formatTrack bareTrack).waveform_url = .null :=
  have hw := formatTrack_missing_field_defaults bareTrack
  ⟨(hw.1 rfl rfl rfl).1, (hw.1 rfl rfl rfl).2.1, (hw.1 rfl rfl rfl).2.2, hw.2.1 rfl,
    hw.2.2.1 rfl, hw.2.2.2.1 rfl⟩

/-- The lookup of `alice`, answered `404 Not Found` by the sample API. -/
theorem getUser_wraps_api_error_witness :
    (getUser (sampleHost 3600) "alice" (freshSys 0)).1 =
      .error "Error fetching user data: API request failed: 404 Not Found" ∧
    ((getUser (sampleHost 3600) "alice" (freshSys 0)).2.requests.map fun r => r.method) =
      ["POST", "GET"] :=
  have hw := getUser_wraps_api_error (sampleHost 3600) "alice" (freshSys 0)
    (getAccessToken (sampleHost 3600) ((freshSys 0).called (.getUser "alice"))).2
    (.str "tok") (jsonResponse 404 "Not Found" emptyBody) 2000 rfl rfl (Or.inr (by decide))
  ⟨hw.1, congrArg (List.map fun r => r.method) hw.2.2.2⟩

end SCLatestTracks
